import Mathlib

/-!
Shallow embedding of the incremental Delaunay triangulation mesh from
`boost/math/interpolators/detail/tri_mesh.hpp` and the polygon-area utility
from `boost/math/interpolators/detail/triangulation.hpp` (a C++ port of
Renka's TRIPACK, Algorithm 751).

Modelling conventions:
* The templated floating-point type `Real` is modelled by `ℚ` for the mesh
  bookkeeping (exact comparisons) and by `ℝ` for the triangle geometry in
  `circum`, which uses `sqrt`.
* `std::vector` members are modelled by `List`.  The constructor resizes the
  three adjacency vectors to `node_count` (value-initialised with zeros) and
  then unconditionally stores the six seed entries at indices 0..5; for fewer
  than six nodes those stores land beyond the resized length, which is
  determinised here by padding, so the stored arrays are the literal seed
  pattern followed by `node_count - 6` (truncated) zeros.  Out-of-range reads
  (`operator[]` past the end) are determinised to the value-initialised 0 via
  `List.getD`.
* `std::size_t` is modelled by `ℕ`; storing a (possibly negative) `long` list
  entry into a `size_t` variable wraps modulo 2^64, modelled by `intToSize`.
  The count members assigned at the end of `build_nodes` are modelled in `ℤ`
  (the values the `size_t` expressions denote whenever no wrap occurs).
* A C++ function that can `throw` becomes `Except`; the three distinct throw
  statements of the constructor become the three constructors of
  `ConstructError`.  A non-void function whose body ends without a `return`
  statement produces no value, modelled by `Option` returning `none`.
* The unbounded `while` loop of `build_nodes` is modelled with explicit fuel:
  `none` means the loop was still running after `fuel` iterations.
-/

namespace TriMesh

/-- `size_t` conversion of a signed `long` value (wraps modulo `2^64`), as in
`std::size_t current_node = list[lp];` for a possibly negative `list` entry. -/
def intToSize (z : ℤ) : ℕ := (z % (2 : ℤ) ^ 64).toNat

/-- Orientation predicate (tri_mesh.hpp lines 186-198): true iff node
`(x0, y0)` is to the left of (or on) the directed line from `(x1, y1)` to
`(x2, y2)`.  The source computes `dx1*dy2 >= dx2*dy1` with
`dx1 = x2-x1, dy1 = y2-y1, dx2 = x0-x1, dy2 = y0-y1`. -/
def left (x1 y1 x2 y2 x0 y0 : ℚ) : Bool :=
  decide ((x2 - x1) * (y0 - y1) ≥ (x0 - x1) * (y2 - y1))

/-- Forward predicate (tri_mesh.hpp lines 200-204): true iff `C` is within 90
degrees of the direction `A → B`, via the sign of the dot product. -/
def forward (xa ya xb yb xc yc : ℚ) : Bool :=
  decide ((xb - xa) * (xc - xa) + (yb - ya) * (yc - ya) ≥ 0)

/-- The 2-D cross product `(P1-P0) × (P2-P0)`; it is the quantity whose sign
the `left` test compares, and it vanishes exactly when the three points are
collinear. -/
def cross2 (x0 y0 x1 y1 x2 y2 : ℚ) : ℚ :=
  (x1 - x0) * (y2 - y0) - (x2 - x0) * (y1 - y0)

/-- The adjacency-structure state owned by `tri_mesh` after construction:
`list` (signed neighbor entries), `lptr` (ring successor positions), `lend`
(terminal ring position per node) and the `lnew` cursor.  `lnew` is an
`Option` because the constructor contains no statement assigning it (the
comment `// Initialize lnew and add the remaining nodes` at line 183 is
followed by no code), so it is `none` (indeterminate) in every constructed
state. -/
structure MeshState where
  node_count : ℕ
  list : List ℤ
  lptr : List ℕ
  lend : List ℕ
  lnew : Option ℕ
  deriving DecidableEq

/-- The three distinct throw statements of the constructor
(tri_mesh.hpp lines 111, 115, 180):
`std::logic_error("X and Y must be the same length.\n")`,
`std::domain_error("X and Y must have at least three nodes for meshing.\n")`,
`std::logic_error("The first three nodes must not be co-linear.\n")`. -/
inductive ConstructError where
  | lengthMismatch
  | insufficientPoints
  | collinearSeed
  deriving DecidableEq

/-- The `tri_mesh` constructor (tri_mesh.hpp lines 104-184): validates the
two coordinate sequences, then seeds the adjacency arrays with the first
triangle.  The branch taken when `!left(P0,P1,P2)` stores the triangle
`(1,3,2)`; the branch taken when `!left(P1,P0,P2)` stores `(1,2,3)`; if both
`left` tests succeed the first three nodes are collinear and construction
throws.  Array layout per the padding convention described in the module
comment.  No statement after the seed initialises `lnew` or inserts the
remaining nodes. -/
def construct (xs ys : List ℚ) : Except ConstructError MeshState :=
  if xs.length ≠ ys.length then .error .lengthMismatch
  else if xs.length < 3 then .error .insufficientPoints
  else if left (xs.getD 0 0) (ys.getD 0 0) (xs.getD 1 0) (ys.getD 1 0)
            (xs.getD 2 0) (ys.getD 2 0) = false then
    -- The initial triangle is 1, 3, 2
    .ok { node_count := xs.length,
          list := [3, -2, 1, -3, 2, -1] ++ List.replicate (xs.length - 6) 0,
          lptr := [2, 1, 4, 3, 6, 5] ++ List.replicate (xs.length - 6) 0,
          lend := [2, 4, 6] ++ List.replicate (xs.length - 3) 0,
          lnew := none }
  else if left (xs.getD 1 0) (ys.getD 1 0) (xs.getD 0 0) (ys.getD 0 0)
            (xs.getD 2 0) (ys.getD 2 0) = false then
    -- The initial triangle is 1, 2, 3
    .ok { node_count := xs.length,
          list := [2, -3, 3, -1, 1, -2] ++ List.replicate (xs.length - 6) 0,
          lptr := [2, 1, 4, 3, 6, 5] ++ List.replicate (xs.length - 6) 0,
          lend := [2, 4, 6] ++ List.replicate (xs.length - 3) 0,
          lnew := none }
  else .error .collinearSeed

/-- Nodal indexes in counterclockwise order of the vertices of a triangle
(tri_mesh.hpp lines 26-31; the source stores them in fields of type `Real`). -/
structure NodalIndex where
  i1 : ℚ
  i2 : ℚ
  i3 : ℚ
  deriving DecidableEq

set_option linter.unusedVariables false in
/-- `find_triangle` (tri_mesh.hpp lines 206-221).  The body sets up the local
variables `n0, lp, nl, nf, n1, np, npp` (first and last neighbors of the
start node) and then ends: there is no loop and no `return` statement, so no
`nodal_index` value is ever produced — modelled as `none` on every input. -/
def find_triangle (s : MeshState) (index : ℕ) (x y : ℚ) : Option NodalIndex :=
  let xp := x
  let yp := y
  let n0 := index
  let lp := s.lend.getD index 0
  let nl := s.list.getD lp 0
  let lp2 := s.lptr.getD lp 0
  let nf := s.list.getD lp2 0
  let n1 := nf
  let np := nl
  let npp := nf
  none

/-- The initial search of `build_nodes` (tri_mesh.hpp lines 256-262):
advance `start_node` while `list[start_node] > 0`.  (If every entry were
positive the C++ loop would run past the end; with reads past the end
determinised to the value-initialised 0, the search stops at the length.) -/
def bnStartAux : List ℤ → ℕ
  | [] => 0
  | z :: rest => if z > 0 then bnStartAux rest + 1 else 0

/-- The hull-walk loop of `build_nodes` (tri_mesh.hpp lines 272-278):
`while (start_node != current_node) { ++k; nodes_.push_back(current_node);
lp = lend[current_node]; current_node = list[lp]; }`.
The C++ loop has no step bound and no error path; `fuel` counts how many
iterations we are willing to unfold, and `none` means the loop was still
running after `fuel` iterations. -/
def bnWalk (lend : List ℕ) (lst : List ℤ) (start : ℕ) :
    ℕ → ℕ → List ℕ → ℕ → Option (List ℕ × ℕ)
  | 0, current, acc, k => if current = start then some (acc, k) else none
  | fuel + 1, current, acc, k =>
    if current = start then some (acc, k)
    else bnWalk lend lst start fuel
      (intToSize (lst.getD (lend.getD current 0) 0)) (acc ++ [current]) (k + 1)

/-- The quantities derived by `build_nodes` (tri_mesh.hpp lines 264-282): the
node sequence pushed onto `nodes_`, and the `boundary_node_count_`,
`triangle_count_` and `arc_count_` members assigned at the end. -/
structure BuildResult where
  nodes : List ℕ
  boundary_node_count : ℕ
  triangle_count : ℤ
  arc_count : ℤ
  deriving DecidableEq

/-- `build_nodes` (tri_mesh.hpp lines 253-283): find the first node whose
`list` entry is not positive, push it, walk `current = list[lend[current]]`
until the walk returns to the start, then assign
`boundary_node_count_ = k`, `triangle_count_ = 2*node_count_ -
boundary_node_count_ - 2` and `arc_count_ = triangle_count_ + node_count_ - 1`.
(The dead initial read `lp = lend[start_node]` at line 257 is overwritten at
line 269 before use and is omitted.) -/
def build_nodes (s : MeshState) (fuel : ℕ) : Option BuildResult :=
  (bnWalk s.lend s.list (bnStartAux s.list) fuel
      (intToSize (s.list.getD (s.lend.getD (bnStartAux s.list) 0) 0))
      [bnStartAux s.list] 1).map fun p =>
    { nodes := p.1, boundary_node_count := p.2,
      triangle_count := 2 * (s.node_count : ℤ) - (p.2 : ℤ) - 2,
      arc_count := 2 * (s.node_count : ℤ) - (p.2 : ℤ) - 2 + (s.node_count : ℤ) - 1 }

/-- The loop of the polygon-area utility, carrying the `node_2` cursor: each
iteration sets `node_1 = node_2; node_2 = nodes[i]` and accumulates
`(x[node_2] - x[node_1]) * (y[node_1] + y[node_2])`
(triangulation.hpp lines 34-43, tri_mesh.hpp lines 240-247). -/
def paLoop (x y : List ℚ) : ℕ → List ℕ → ℚ
  | _, [] => 0
  | n2, n :: rest =>
    (x.getD n 0 - x.getD n2 0) * (y.getD n2 0 + y.getD n 0) + paLoop x y n rest

/-- `polygonal_area` (triangulation.hpp lines 20-46; the same computation as
`area` in tri_mesh.hpp lines 229-251): 0 when the index sequence has length
at most 3, otherwise the negated half of the accumulated sum, with `node_2`
starting at the final node of the sequence so that the pairs wrap around.
(In triangulation.hpp the initialiser is written `*nodes_end` and the loop
update `node_2 = nodes_begin`, resolved to the final element and `*nodes_begin`
— the only reading that is well-formed and matches the container variant's
`nodes.back()`; in tri_mesh.hpp the guard is written `nodal_boundaries > 3`
and the loop reads `nodes_[i]`, resolved to `nodes.size() > 3` and `nodes[i]`,
the only identifiers in scope.) -/
def polygonal_area (x y : List ℚ) (nodes : List ℕ) : ℚ :=
  if nodes.length ≤ 3 then 0
  else -(paLoop x y (nodes.getLastD 0) nodes) / 2

/-- Reference definition following the specification's words (§4.7): the
shoelace summation `x_a * y_b - x_b * y_a` over the consecutive index pairs
`(a, b)` of the closed polygon — the wrap-around pair `(last, first)` first,
then each adjacent pair in order. -/
def shoelaceChain (x y : List ℚ) : ℕ → List ℕ → ℚ
  | _, [] => 0
  | p, n :: rest =>
    (x.getD p 0 * y.getD n 0 - x.getD n 0 * y.getD p 0) + shoelaceChain x y n rest

/-- Reference definition following the specification's words (§4.7): the
signed area of the closed polygon through the indexed points, i.e. half the
shoelace summation, positive for counterclockwise ordering. -/
def specSignedArea (x y : List ℚ) (nodes : List ℕ) : ℚ :=
  shoelaceChain x y (nodes.getLastD 0) nodes / 2

/-- The vertex data handed to `circum` (tri_mesh.hpp lines 34-53: the
`triangle` struct's constructor-initialised coordinate fields). -/
structure Triangle where
  x1 : ℝ
  y1 : ℝ
  x2 : ℝ
  y2 : ℝ
  x3 : ℝ
  y3 : ℝ

/-- The fields of the `triangle` struct written by `circum`: `area` and
`aspect_ratio` are assigned on every path; the circumcenter coordinates and
the circumradius are assigned only when the area is nonzero and stay
indeterminate (`none`) otherwise. -/
structure CircumOut where
  area : ℝ
  xc : Option ℝ
  yc : Option ℝ
  circumradius : Option ℝ
  aspect_ratio : ℝ

/-- The signed area computed by `circum` (tri_mesh.hpp lines 292-295):
`(u[0]*v[1] - u[1]*v[0]) / 2` with `u = {x3-x2, x1-x3, x2-x1}` and
`v = {y3-y2, y1-y3, y2-y1}`. -/
noncomputable def tri_area (t : Triangle) : ℝ :=
  ((t.x3 - t.x2) * (t.y1 - t.y3) - (t.x1 - t.x3) * (t.y3 - t.y2)) / 2

/-- The accumulated `fx` of `circum` (lines 303-315): the sum of
`squared_distance[i] * v[i]`. -/
noncomputable def circ_fx (t : Triangle) : ℝ :=
  (t.x1 * t.x1 + t.y1 * t.y1) * (t.y3 - t.y2) +
  (t.x2 * t.x2 + t.y2 * t.y2) * (t.y1 - t.y3) +
  (t.x3 * t.x3 + t.y3 * t.y3) * (t.y2 - t.y1)

/-- The accumulated `fy` of `circum` (lines 303-315): the sum of
`squared_distance[i] * u[i]`. -/
noncomputable def circ_fy (t : Triangle) : ℝ :=
  (t.x1 * t.x1 + t.y1 * t.y1) * (t.x3 - t.x2) +
  (t.x2 * t.x2 + t.y2 * t.y2) * (t.x1 - t.x3) +
  (t.x3 * t.x3 + t.y3 * t.y3) * (t.x2 - t.x1)

/-- `t.xc = fx / (4 * t.area)` (line 317). -/
noncomputable def circ_xc (t : Triangle) : ℝ := circ_fx t / (4 * tri_area t)

/-- `t.yc = fy / (4 * t.area)` (line 318). -/
noncomputable def circ_yc (t : Triangle) : ℝ := circ_fy t / (4 * tri_area t)

/-- `t.circumradius` (line 320): distance from the computed circumcenter to
vertex 1. -/
noncomputable def circ_radius (t : Triangle) : ℝ :=
  Real.sqrt ((circ_xc t - t.x1) * (circ_xc t - t.x1) +
             (circ_yc t - t.y1) * (circ_yc t - t.y1))

/-- `sqrt(squared_vector[0])` (lines 323-328): the length of the edge from
vertex 2 to vertex 3. -/
noncomputable def edge_len1 (t : Triangle) : ℝ :=
  Real.sqrt ((t.x3 - t.x2) * (t.x3 - t.x2) + (t.y3 - t.y2) * (t.y3 - t.y2))

/-- `sqrt(squared_vector[1])`: the length of the edge from vertex 3 to
vertex 1. -/
noncomputable def edge_len2 (t : Triangle) : ℝ :=
  Real.sqrt ((t.x1 - t.x3) * (t.x1 - t.x3) + (t.y1 - t.y3) * (t.y1 - t.y3))

/-- `sqrt(squared_vector[2])`: the length of the edge from vertex 1 to
vertex 2. -/
noncomputable def edge_len3 (t : Triangle) : ℝ :=
  Real.sqrt ((t.x2 - t.x1) * (t.x2 - t.x1) + (t.y2 - t.y1) * (t.y2 - t.y1))

/-- `circum` (tri_mesh.hpp lines 285-329).  If the computed area is exactly
zero (`fpclassify(t.area) == FP_ZERO`), only `aspect_ratio = 0` is written
and the function returns.  Otherwise the circumcenter, circumradius and
aspect ratio are computed; the aspect-ratio expression is transcribed exactly
as written in the source, where operator precedence multiplies only the third
edge length by the circumradius:
`2*abs(area) / (sqrt(sv[0]) + sqrt(sv[1]) + sqrt(sv[2]) * circumradius)`. -/
noncomputable def circum (t : Triangle) : CircumOut :=
  if tri_area t = 0 then
    { area := tri_area t, xc := none, yc := none, circumradius := none,
      aspect_ratio := 0 }
  else
    { area := tri_area t, xc := some (circ_xc t), yc := some (circ_yc t),
      circumradius := some (circ_radius t),
      aspect_ratio := 2 * |tri_area t| /
        (edge_len1 t + edge_len2 t + edge_len3 t * circ_radius t) }

/-- The seed state produced for a counterclockwise first triple: the stored
initial triangle is (1, 2, 3). -/
def seedCCW : MeshState :=
  ⟨3, [2, -3, 3, -1, 1, -2], [2, 1, 4, 3, 6, 5], [2, 4, 6], none⟩

/-- The seed state produced for a clockwise first triple: the stored initial
triangle is (1, 3, 2). -/
def seedCW : MeshState :=
  ⟨3, [3, -2, 1, -3, 2, -1], [2, 1, 4, 3, 6, 5], [2, 4, 6], none⟩

/-- An inconsistent mesh state whose hull walk cycles between nodes 2 and 3
and never returns to its starting node 0: `list[0] = -1` makes 0 the start,
`list[lend[0]] = list[9] = 2`, `list[lend[2]] = list[10] = 3`,
`list[lend[3]] = list[11] = 2`. -/
def badMesh : MeshState :=
  ⟨4, [-1, 0, 0, 0, 0, 0, 0, 0, 0, 2, 3, 2], [], [9, 0, 10, 11], none⟩

/-! ## Helper lemmas -/

/-- Evaluation of the constructor on the counterclockwise triple
(0,0), (1,0), (0,1): the second orientation branch is taken and the seed
triangle (1, 2, 3) is stored. -/
theorem construct_eval_ccw : construct [0, 1, 0] [0, 0, 1] = Except.ok seedCCW := by
  have h1 : left 0 0 1 0 0 1 = true := by
    unfold left; exact decide_eq_true (by norm_num)
  have h2 : left 1 0 0 0 0 1 = false := by
    unfold left; exact decide_eq_false (by norm_num)
  unfold construct
  simp only [List.getD_cons_zero, List.getD_cons_succ]
  rw [if_neg (by decide), if_neg (by decide), if_neg (by simp [h1]), if_pos h2]
  rfl

/-- Evaluation of the constructor on the clockwise triple
(0,0), (0,1), (1,0): the first orientation branch is taken and the seed
triangle (1, 3, 2) is stored. -/
theorem construct_eval_cw : construct [0, 0, 1] [0, 1, 0] = Except.ok seedCW := by
  have h1 : left 0 0 0 1 1 0 = false := by
    unfold left; exact decide_eq_false (by norm_num)
  unfold construct
  simp only [List.getD_cons_zero, List.getD_cons_succ]
  rw [if_neg (by decide), if_neg (by decide), if_pos h1]
  rfl

/-- Any successfully constructed state records the length of the x-sequence
as its node count. -/
theorem construct_ok_node_count (xs ys : List ℚ) (s : MeshState)
    (hc : construct xs ys = .ok s) : s.node_count = xs.length := by
  unfold construct at hc
  split_ifs at hc <;> simp only [Except.ok.injEq, reduceCtorEq] at hc <;>
    first
    | exact hc.elim
    | (rw [← hc])

/-- The loop accumulator of the polygon-area utility differs from the negated
shoelace chain only by a telescoping correction which vanishes around a
closed cycle. -/
theorem paLoop_shoelace (x y : List ℚ) (l : List ℕ) :
    ∀ p : ℕ, paLoop x y p l =
      -(shoelaceChain x y p l) +
        (x.getD (l.getLastD p) 0 * y.getD (l.getLastD p) 0 -
         x.getD p 0 * y.getD p 0) := by
  induction l with
  | nil => intro p; simp [paLoop, shoelaceChain]
  | cons n t ih =>
    intro p
    simp only [paLoop, shoelaceChain, List.getLastD_cons]
    rw [ih n]
    ring

/-- The area field of `circum` is the computed signed area on both branches. -/
theorem circum_area_val (t : Triangle) : CircumOut.area (circum t) = tri_area t := by
  unfold circum
  split_ifs <;> rfl

/-! ## Claims -/

/-- C1: the specification says `find_triangle` returns either the three
vertex indices (in counterclockwise order) of a triangle containing the
query point, or the rightmost and leftmost visible hull nodes for an
exterior point — and the function's own comment (tri_mesh.hpp lines 88-89)
promises the same.  The body, however, only reads the start node's first and
last neighbors and ends without a return statement, so no nodal-index result
is ever produced, on any mesh and any query point. -/
theorem find_triangle_no_return (s : MeshState) (index : ℕ) (x y : ℚ) :
    find_triangle s index x y = none := rfl

/-- C2: whenever construction succeeds and the boundary enumeration
terminates, the derived counts satisfy
`triangle_count = 2*N - boundary_node_count - 2` and
`arc_count = triangle_count + N - 1` for `N` the number of input points:
`build_nodes` assigns them by exactly these formulas
(tri_mesh.hpp lines 280-282). -/
theorem build_counts_euler (xs ys : List ℚ) (s : MeshState) (fuel : ℕ)
    (r : BuildResult) (hc : construct xs ys = .ok s)
    (hb : build_nodes s fuel = some r) :
    r.triangle_count = 2 * (xs.length : ℤ) - (r.boundary_node_count : ℤ) - 2 ∧
    r.arc_count = r.triangle_count + (xs.length : ℤ) - 1 := by
  have hn : s.node_count = xs.length := construct_ok_node_count xs ys s hc
  unfold build_nodes at hb
  obtain ⟨⟨ns, k⟩, hw, hf⟩ := Option.map_eq_some'.mp hb
  rw [← hf, ← hn]
  exact ⟨rfl, rfl⟩

/-- Witness for C2 at the minimal input (0,0), (1,0), (0,1). -/
theorem build_counts_euler_witness :
    construct [0, 1, 0] [0, 0, 1] = Except.ok seedCCW ∧
    build_nodes seedCCW 100 = some ⟨[1], 1, 3, 5⟩ ∧
    (BuildResult.triangle_count ⟨[1], 1, 3, 5⟩ =
        2 * (([0, 1, 0] : List ℚ).length : ℤ) -
          (BuildResult.boundary_node_count ⟨[1], 1, 3, 5⟩ : ℤ) - 2 ∧
     BuildResult.arc_count ⟨[1], 1, 3, 5⟩ =
        BuildResult.triangle_count ⟨[1], 1, 3, 5⟩ +
          (([0, 1, 0] : List ℚ).length : ℤ) - 1) :=
  ⟨construct_eval_ccw, by decide,
   build_counts_euler [0, 1, 0] [0, 0, 1] seedCCW 100 ⟨[1], 1, 3, 5⟩
     construct_eval_ccw (by decide)⟩

/-- C3: the specification says the boundary enumeration fails with an
inconsistent-mesh error if the hull walk does not return to its start within
`node_count` steps, and on a consistent mesh produces the ordered
boundary-node sequence.  The loop (tri_mesh.hpp lines 272-278) has neither:
on the seed mesh of (0,0), (1,0), (0,1) — whose hull consists of all three
nodes — the walk stops immediately with the single-element sequence `[1]`
and boundary count 1 (its `list[lend[n]]` lookup mixes the 1-based positions
stored by the constructor with 0-based indexing and ignores the sign
convention), and on an inconsistent mesh whose walk cycles it simply keeps
looping (here: still running after 100 iterations, far beyond the 4 steps of
`node_count`), raising no error. -/
theorem build_nodes_walk_unchecked :
    construct [0, 1, 0] [0, 0, 1] = Except.ok seedCCW ∧
    build_nodes seedCCW 100 = some ⟨[1], 1, 3, 5⟩ ∧
    MeshState.node_count badMesh = 4 ∧
    build_nodes badMesh 100 = none :=
  ⟨construct_eval_ccw, by decide, rfl, by decide⟩

/-- C4: the three construction failures are distinct, catchable conditions
(`std::logic_error` for a length mismatch, `std::domain_error` for fewer
than three points, `std::logic_error` with a different message for a
collinear seed), checked in that order; collinearity of the first three
points is exactly the case in which both orientation tests succeed, and the
example (0,0), (1,1), (2,2) lands there.  No mesh state accompanies an
error. -/
theorem construct_error_taxonomy :
    (∀ xs ys : List ℚ, xs.length ≠ ys.length →
      construct xs ys = .error .lengthMismatch) ∧
    (∀ xs ys : List ℚ, xs.length = ys.length → xs.length < 3 →
      construct xs ys = .error .insufficientPoints) ∧
    (∀ xs ys : List ℚ, xs.length = ys.length → 3 ≤ xs.length →
      cross2 (xs.getD 0 0) (ys.getD 0 0) (xs.getD 1 0) (ys.getD 1 0)
        (xs.getD 2 0) (ys.getD 2 0) = 0 →
      construct xs ys = .error .collinearSeed) ∧
    construct [0, 1, 2] [0, 1, 2] = .error .collinearSeed := by
  refine ⟨?_, ?_, ?_, ?_⟩
  · intro xs ys h
    unfold construct
    rw [if_pos h]
  · intro xs ys h h3
    unfold construct
    rw [if_neg (fun hn => hn h), if_pos h3]
  · intro xs ys heq h3 hcol
    unfold cross2 at hcol
    have hl1 : left (xs.getD 0 0) (ys.getD 0 0) (xs.getD 1 0) (ys.getD 1 0)
        (xs.getD 2 0) (ys.getD 2 0) = true := by
      unfold left
      exact decide_eq_true (by linarith)
    have hl2 : left (xs.getD 1 0) (ys.getD 1 0) (xs.getD 0 0) (ys.getD 0 0)
        (xs.getD 2 0) (ys.getD 2 0) = true := by
      unfold left
      refine decide_eq_true ?_
      have hkey : (xs.getD 0 0 - xs.getD 1 0) * (ys.getD 2 0 - ys.getD 1 0) -
          (xs.getD 2 0 - xs.getD 1 0) * (ys.getD 0 0 - ys.getD 1 0) = 0 := by
        linear_combination -hcol
      linarith
    unfold construct
    rw [if_neg (fun hn => hn heq), if_neg (by omega), if_neg (by rw [hl1]; simp),
        if_neg (by rw [hl2]; simp)]
  · have hl1 : left (0 : ℚ) 0 1 1 2 2 = true := by
      unfold left; exact decide_eq_true (by norm_num)
    have hl2 : left (1 : ℚ) 1 0 0 2 2 = true := by
      unfold left; exact decide_eq_true (by norm_num)
    unfold construct
    simp only [List.getD_cons_zero, List.getD_cons_succ]
    rw [if_neg (by decide), if_neg (by decide), if_neg (by simp [hl1]),
        if_neg (by simp [hl2])]

/-- Witness for C4: concrete inputs for the three error conditions. -/
theorem construct_error_taxonomy_witness :
    (([0, 0] : List ℚ).length ≠ ([0] : List ℚ).length ∧
      construct [0, 0] [0] = .error .lengthMismatch) ∧
    (([0, 0] : List ℚ).length < 3 ∧
      construct [0, 0] [0, 0] = .error .insufficientPoints) ∧
    (cross2 (([0, 1, 2] : List ℚ).getD 0 0) (([0, 1, 2] : List ℚ).getD 0 0)
        (([0, 1, 2] : List ℚ).getD 1 0) (([0, 1, 2] : List ℚ).getD 1 0)
        (([0, 1, 2] : List ℚ).getD 2 0) (([0, 1, 2] : List ℚ).getD 2 0) = 0 ∧
      construct [0, 1, 2] [0, 1, 2] = .error .collinearSeed) :=
  ⟨⟨by decide, construct_error_taxonomy.1 [0, 0] [0] (by decide)⟩,
   ⟨by decide, construct_error_taxonomy.2.1 [0, 0] [0, 0] (by decide) (by decide)⟩,
   ⟨by norm_num [cross2], construct_error_taxonomy.2.2.1 [0, 1, 2] [0, 1, 2]
      rfl (by decide) (by norm_num [cross2])⟩⟩

/-- C5: the claim's orientation parts hold — the clockwise triple
(0,0), (0,1), (1,0) is stored as the seed (1, 3, 2) = (P0, P2, P1) while the
counterclockwise triple (0,0), (1,0), (0,1) is stored as (1, 2, 3) =
(P0, P1, P2), and in both layouts each of the three nodes owns a two-entry
ring (positions (1,2), (3,4), (5,6), each holding one positive and one
negative entry, with `lptr` pairing the two positions) — but the claim's
final part fails: the constructor ends at the comment
`// Initialize lnew and add the remaining nodes` (line 183) without any
assignment, so `lnew` is left indeterminate (`none`) instead of pointing
past the six used slots. -/
theorem seed_orientation_no_lnew :
    construct [0, 1, 0] [0, 0, 1] = Except.ok seedCCW ∧
    construct [0, 0, 1] [0, 1, 0] = Except.ok seedCW ∧
    MeshState.list seedCCW = [2, -3, 3, -1, 1, -2] ∧
    MeshState.list seedCW = [3, -2, 1, -3, 2, -1] ∧
    MeshState.lptr seedCCW = [2, 1, 4, 3, 6, 5] ∧
    MeshState.lend seedCCW = [2, 4, 6] ∧
    MeshState.lnew seedCCW = none ∧ MeshState.lnew seedCW = none :=
  ⟨construct_eval_ccw, construct_eval_cw, rfl, rfl, rfl, rfl, rfl, rfl⟩

/-- C6: the polygon-area utility returns exactly 0 for index sequences of
length at most 3; for length at least 4 it returns the negated half of the
accumulated summation, which equals the reference signed area — half the
shoelace sum over the consecutive wrap-around index pairs, positive for
counterclockwise ordering (the unit square traversed counterclockwise has
area +1). -/
theorem polygonal_area_spec :
    (∀ (x y : List ℚ) (nodes : List ℕ), nodes.length ≤ 3 →
      polygonal_area x y nodes = 0) ∧
    (∀ (x y : List ℚ) (nodes : List ℕ), 4 ≤ nodes.length →
      polygonal_area x y nodes = specSignedArea x y nodes) ∧
    polygonal_area [0, 1, 1, 0] [0, 0, 1, 1] [0, 1, 2, 3] = 1 := by
  have main : ∀ (x y : List ℚ) (nodes : List ℕ), 4 ≤ nodes.length →
      polygonal_area x y nodes = specSignedArea x y nodes := by
    intro x y nodes h4
    unfold polygonal_area specSignedArea
    rw [if_neg (by omega)]
    rcases nodes with _ | ⟨n, t⟩
    · simp at h4
    · rw [paLoop_shoelace x y (n :: t) ((n :: t).getLastD 0)]
      simp only [List.getLastD_cons]
      ring
  refine ⟨?_, main, ?_⟩
  · intro x y nodes h
    unfold polygonal_area
    rw [if_pos h]
  · rw [main [0, 1, 1, 0] [0, 0, 1, 1] [0, 1, 2, 3] (by decide)]
    unfold specSignedArea
    norm_num [shoelaceChain, List.getD_cons_zero, List.getD_cons_succ]

/-- Witness for C6: a triangle index sequence (length 3) and the unit-square
sequence (length 4). -/
theorem polygonal_area_spec_witness :
    (([0, 1, 2] : List ℕ).length ≤ 3 ∧
      polygonal_area [0, 1, 1] [0, 0, 1] [0, 1, 2] = 0) ∧
    (4 ≤ ([0, 1, 2, 3] : List ℕ).length ∧
      polygonal_area [0, 1, 1, 0] [0, 0, 1, 1] [0, 1, 2, 3] =
        specSignedArea [0, 1, 1, 0] [0, 0, 1, 1] [0, 1, 2, 3]) :=
  ⟨⟨by decide, polygonal_area_spec.1 [0, 1, 1] [0, 0, 1] [0, 1, 2] (by decide)⟩,
   ⟨by decide, polygonal_area_spec.2.1 [0, 1, 1, 0] [0, 0, 1, 1] [0, 1, 2, 3]
      (by decide)⟩⟩

/-- C7: the claim (and the cited TRIPACK original, and §4.2 of the
specification) takes the aspect ratio to be
`2*|area| / ((s1 + s2 + s3) * circumradius)`, a value in (0, 1].  The source
expression (tri_mesh.hpp lines 327-328) lost the parentheses, so only the
third edge length is multiplied by the circumradius.  On the right triangle
(0,0), (30,0), (0,40) — area 600, edges 50, 40, 30, computed circumradius
25 — the code yields `1200 / (50 + 40 + 30*25) = 10/7`, which differs from
the claimed value `1200 / ((50 + 40 + 30) * 25) = 2/5` and exceeds 1. -/
theorem circum_aspect_denominator_slip :
    CircumOut.area (circum ⟨0, 0, 30, 0, 0, 40⟩) = 600 ∧
    CircumOut.circumradius (circum ⟨0, 0, 30, 0, 0, 40⟩) = some 25 ∧
    CircumOut.aspect_ratio (circum ⟨0, 0, 30, 0, 0, 40⟩) = 10 / 7 ∧
    (10 / 7 : ℝ) ≠ 2 * 600 / ((50 + 40 + 30) * 25) ∧ 1 < (10 / 7 : ℝ) := by
  have hA : tri_area ⟨0, 0, 30, 0, 0, 40⟩ = 600 := by
    unfold tri_area; norm_num
  have hxc : circ_xc ⟨0, 0, 30, 0, 0, 40⟩ = -15 := by
    unfold circ_xc circ_fx
    rw [hA]; norm_num
  have hyc : circ_yc ⟨0, 0, 30, 0, 0, 40⟩ = 20 := by
    unfold circ_yc circ_fy
    rw [hA]; norm_num
  have hrad : circ_radius ⟨0, 0, 30, 0, 0, 40⟩ = 25 := by
    unfold circ_radius
    rw [hxc, hyc]
    rw [show ((-15 : ℝ) - Triangle.x1 ⟨0, 0, 30, 0, 0, 40⟩) *
          ((-15 : ℝ) - Triangle.x1 ⟨0, 0, 30, 0, 0, 40⟩) +
          ((20 : ℝ) - Triangle.y1 ⟨0, 0, 30, 0, 0, 40⟩) *
          ((20 : ℝ) - Triangle.y1 ⟨0, 0, 30, 0, 0, 40⟩) = 25 ^ 2 by norm_num]
    exact Real.sqrt_sq (by norm_num)
  have he1 : edge_len1 ⟨0, 0, 30, 0, 0, 40⟩ = 50 := by
    unfold edge_len1
    rw [show ((0 : ℝ) - 30) * ((0 : ℝ) - 30) + ((40 : ℝ) - 0) * ((40 : ℝ) - 0) =
          50 ^ 2 by norm_num]
    exact Real.sqrt_sq (by norm_num)
  have he2 : edge_len2 ⟨0, 0, 30, 0, 0, 40⟩ = 40 := by
    unfold edge_len2
    rw [show ((0 : ℝ) - 0) * ((0 : ℝ) - 0) + ((0 : ℝ) - 40) * ((0 : ℝ) - 40) =
          40 ^ 2 by norm_num]
    exact Real.sqrt_sq (by norm_num)
  have he3 : edge_len3 ⟨0, 0, 30, 0, 0, 40⟩ = 30 := by
    unfold edge_len3
    rw [show ((30 : ℝ) - 0) * ((30 : ℝ) - 0) + ((0 : ℝ) - 0) * ((0 : ℝ) - 0) =
          30 ^ 2 by norm_num]
    exact Real.sqrt_sq (by norm_num)
  have hne : tri_area ⟨0, 0, 30, 0, 0, 40⟩ ≠ 0 := by rw [hA]; norm_num
  unfold circum
  rw [if_neg hne]
  refine ⟨hA, by rw [hrad], ?_, by norm_num, by norm_num⟩
  show 2 * |tri_area ⟨0, 0, 30, 0, 0, 40⟩| / _ = 10 / 7
  rw [hA, hrad, he1, he2, he3]
  norm_num

/-- C8: if the signed area computed by `circum` is exactly zero
(`fpclassify(t.area) == FP_ZERO`, lines 297-301), the aspect ratio is set to
the sentinel 0 and the function returns at once, leaving the circumcenter
coordinates and the circumradius unwritten (indeterminate) instead of
failing. -/
theorem circum_zero_area_sentinel (t : Triangle)
    (h : CircumOut.area (circum t) = 0) :
    CircumOut.aspect_ratio (circum t) = 0 ∧ CircumOut.xc (circum t) = none ∧
    CircumOut.yc (circum t) = none ∧
    CircumOut.circumradius (circum t) = none := by
  have hz : tri_area t = 0 := by rw [← circum_area_val t]; exact h
  unfold circum
  rw [if_pos hz]
  exact ⟨rfl, rfl, rfl, rfl⟩

/-- Witness for C8 at the collinear triple (0,0), (1,1), (2,2). -/
theorem circum_zero_area_sentinel_witness :
    CircumOut.area (circum ⟨0, 0, 1, 1, 2, 2⟩) = 0 ∧
    (CircumOut.aspect_ratio (circum ⟨0, 0, 1, 1, 2, 2⟩) = 0 ∧
     CircumOut.xc (circum ⟨0, 0, 1, 1, 2, 2⟩) = none ∧
     CircumOut.yc (circum ⟨0, 0, 1, 1, 2, 2⟩) = none ∧
     CircumOut.circumradius (circum ⟨0, 0, 1, 1, 2, 2⟩) = none) :=
  have h : CircumOut.area (circum ⟨0, 0, 1, 1, 2, 2⟩) = 0 := by
    rw [circum_area_val]
    unfold tri_area
    norm_num
  ⟨h, circum_zero_area_sentinel ⟨0, 0, 1, 1, 2, 2⟩ h⟩

/-- C9: for a non-collinear triple (the cross product compared by `left` is
nonzero), reversing the directed reference segment flips the reported side:
`left(A, B, C) = !left(B, A, C)`. -/
theorem left_reverses_side (x1 y1 x2 y2 x0 y0 : ℚ)
    (h : (x2 - x1) * (y0 - y1) - (x0 - x1) * (y2 - y1) ≠ 0) :
    left x1 y1 x2 y2 x0 y0 = !(left x2 y2 x1 y1 x0 y0) := by
  have hkey : (x1 - x2) * (y0 - y2) - (x0 - x2) * (y1 - y2) =
      -((x2 - x1) * (y0 - y1) - (x0 - x1) * (y2 - y1)) := by ring
  rcases lt_or_gt_of_ne h with hlt | hgt
  · have h1 : left x1 y1 x2 y2 x0 y0 = false := by
      unfold left
      exact decide_eq_false (by rw [ge_iff_le, not_le]; linarith)
    have h2 : left x2 y2 x1 y1 x0 y0 = true := by
      unfold left
      exact decide_eq_true (by rw [ge_iff_le]; linarith)
    rw [h1, h2]
    rfl
  · have h1 : left x1 y1 x2 y2 x0 y0 = true := by
      unfold left
      exact decide_eq_true (by rw [ge_iff_le]; linarith)
    have h2 : left x2 y2 x1 y1 x0 y0 = false := by
      unfold left
      exact decide_eq_false (by rw [ge_iff_le, not_le]; linarith)
    rw [h1, h2]
    rfl

/-- Witness for C9 at the non-collinear triple A = (0,0), B = (1,0),
C = (0,1). -/
theorem left_reverses_side_witness :
    ((1 : ℚ) - 0) * (1 - 0) - (0 - 0) * (0 - 0) ≠ 0 ∧
    left 0 0 1 0 0 1 = !(left 1 0 0 0 0 1) :=
  ⟨by norm_num, left_reverses_side 0 0 1 0 0 1 (by norm_num)⟩

/-- C10: when the two endpoints of the directed reference line coincide, both
compared products are zero and the non-strict comparison `>=` makes `left`
report true for every query point, rather than failing or returning false. -/
theorem left_coincident_endpoints (x y x0 y0 : ℚ) :
    left x y x y x0 y0 = true := by
  unfold left
  exact decide_eq_true (le_of_eq (by ring))

end TriMesh

